import Mathlib

/-!
Shallow embedding of the pluggable authentication dispatch layer in
src/src/common/slurm_auth.c: the global auth context lifecycle
(slurm_auth_init / slurm_auth_fini), the dispatch facade
(g_slurm_auth_create .. g_slurm_auth_errstr) and the versioned wire codec
(g_slurm_auth_pack / g_slurm_auth_unpack), together with theorems settling
the specification claims about them.

External collaborators (the plugin loader, the pack/unpack byte layer, the
configuration accessors and the project-wide status constants) are not part
of the shown source; they are modelled from the specification and marked as
such in their doc comments.  Each dispatch function additionally returns the
list of provider capabilities it invoked, so that theorems can state that a
given path never calls into the provider.
-/

namespace SlurmAuth

/-- Bytes of a C string value: no terminator and no embedded zero byte. -/
abbrev CStr := List Nat

/-- Credentials are provider-owned values this layer never inspects; they are
modelled as an arbitrary countable handle. -/
abbrev Cred := Nat

/-- Modelled from the spec: the pack/unpack buffer of the external pack layer
(`Buf`, not in the shown source): a byte sequence plus a read offset tracking
how much has been consumed. -/
structure Buf where
  data : List Nat
  processed : Nat
deriving DecidableEq, Repr

/-- Number of bytes not yet consumed from a buffer. -/
def remaining (b : Buf) : Nat := b.data.length - b.processed

/-- Network-order (big-endian) 4-byte encoding of a 32-bit value. -/
def bytes32 (v : Nat) : List Nat :=
  [v % 2 ^ 32 / 2 ^ 24, v % 2 ^ 24 / 2 ^ 16, v % 2 ^ 16 / 2 ^ 8, v % 2 ^ 8]

/-- Network-order decoding of 4 bytes. -/
def be32 (bs : List Nat) : Nat :=
  match bs with
  | [a, b, c, d] => a % 256 * 2 ^ 24 + b % 256 * 2 ^ 16 + c % 256 * 2 ^ 8 + d % 256
  | _ => 0

/-- Modelled from the spec: pack32 of the external pack layer appends the
4-byte network-order encoding of a 32-bit value. -/
def pack32 (v : Nat) (b : Buf) : Buf :=
  { b with data := b.data ++ bytes32 v }

/-- Modelled from the spec: packmem appends a 4-byte length and then that many
raw bytes. -/
def packmem (m : List Nat) (b : Buf) : Buf :=
  { b with data := b.data ++ bytes32 m.length ++ m }

/-- Modelled from the spec: packstr appends a length-prefixed NUL-terminated
string, the length counting the terminator. -/
def packstr (s : CStr) (b : Buf) : Buf :=
  packmem (s ++ [0]) b

/-- Modelled from the spec: safe_unpack32 of the external pack layer reads a
4-byte network-order value and advances the offset; it fails, without
advancing, when fewer than 4 bytes remain. -/
def safe_unpack32 (b : Buf) : Option (Nat × Buf) :=
  if 4 ≤ remaining b then
    some (be32 ((b.data.drop b.processed).take 4),
          { b with processed := b.processed + 4 })
  else none

/-- Modelled from the spec: safe_unpackmem_ptr reads a 4-byte length and then
yields a pointer to that many bytes in place (a NULL pointer when the length
is zero); it fails when the input is truncated or the length prefix exceeds
the remaining bytes.  The buffer returned alongside a failure reflects how far
the read had advanced. -/
def safe_unpackmem_ptr (b : Buf) : Option (Option (List Nat)) × Buf :=
  match safe_unpack32 b with
  | none => (none, b)
  | some (size, b1) =>
    if size = 0 then (some none, b1)
    else if size ≤ remaining b1 then
      (some (some ((b1.data.drop b1.processed).take size)),
       { b1 with processed := b1.processed + size })
    else (none, b1)

/-- C string value behind a pointer into a byte region: the bytes up to the
first zero byte. -/
def cstr_of_region (r : List Nat) : CStr :=
  r.takeWhile (fun x => x != 0)

/-- Modelled from the spec: xstrcmp is the NULL-tolerant, byte-exact,
case-sensitive string comparison; a NULL pointer equals only another NULL.
This layer only ever tests the result against zero, so the nonzero value
carries no order information here. -/
def xstrcmp (a b : Option CStr) : Int :=
  match a, b with
  | none, none => 0
  | none, some _ => -1
  | some _, none => 1
  | some x, some y => if x = y then 0 else 1

/-- Modelled from the spec: the project-wide success status. -/
def SLURM_SUCCESS : Int := 0

/-- Modelled from the spec: the generic error status; it is negative, which
the dispatch layer relies on through its `init < 0` checks. -/
def SLURM_ERROR : Int := -1

/-- Modelled from the spec: the user/group sentinel returned by identity
queries when no provider is available. -/
def SLURM_AUTH_NOBODY : Nat := 99

/-- Modelled from the spec: the auth error codes of the missing header; only
their distinctness matters to this layer. -/
def SLURM_AUTH_NOPLUGIN : Int := 100

/-- Modelled from the spec: bad-argument auth error code. -/
def SLURM_AUTH_BADARG : Int := 101

/-- Modelled from the spec: memory-failure auth error code. -/
def SLURM_AUTH_MEMORY : Int := 102

/-- Modelled from the spec: no-such-identity auth error code. -/
def SLURM_AUTH_NOUSER : Int := 103

/-- Modelled from the spec: invalid-credential auth error code. -/
def SLURM_AUTH_INVALID : Int := 104

/-- Modelled from the spec: provider-mismatch auth error code. -/
def SLURM_AUTH_MISMATCH : Int := 105

/-- Modelled from the spec: version-too-old auth error code. -/
def SLURM_AUTH_VERSION : Int := 106

/-- Modelled from the spec: the newer-wire protocol threshold
(SLURM_19_05_PROTOCOL_VERSION, from the missing protocol header). -/
def SLURM_19_05_PROTOCOL_VERSION : Nat := 8704

/-- Modelled from the spec: the minimum supported protocol threshold
(SLURM_MIN_PROTOCOL_VERSION); it lies below the newer-wire threshold. -/
def SLURM_MIN_PROTOCOL_VERSION : Nat := 8192

/-- Capability table of a loaded provider, mirroring slurm_auth_ops_t with
the plugin_id and plugin_type symbol pointers already dereferenced.  Provider
pack is modelled as producing the bytes it appends plus a status; provider
unpack consumes from the buffer and may fail. -/
structure AuthOps where
  plugin_id : Nat
  plugin_type : CStr
  create : Option CStr → Option Cred
  destroy : Option Cred → Int
  verify : Option Cred → Option CStr → Int
  get_uid : Option Cred → Option CStr → Nat
  get_gid : Option Cred → Option CStr → Nat
  get_host : Option Cred → Option CStr → Option CStr
  pack : Option Cred → Nat → Int × List Nat
  unpack : Buf → Nat → Option Cred × Buf
  print : Option Cred → Nat → Int
  sa_errno : Option Cred → Int
  sa_errstr : Int → String

/-- Modelled from the spec: the loader's context handle (plugin_context_t is
not in the shown source); all this layer uses of it is whether
plugin_context_destroy succeeds on it. -/
structure PluginContext where
  destroy_ok : Bool
deriving DecidableEq

/-- The static module state of slurm_auth.c: init_run, ops, g_context and
g_context_num.  `ops0` is the contents of ops[0] when established (none when
the array is unallocated or its entry was never filled); `g_context` is none
when the pointer is NULL and otherwise carries the single entry, itself NULL
after a failed load. -/
structure AuthState where
  init_run : Bool
  ops0 : Option AuthOps
  g_context : Option (Option PluginContext)
  g_context_num : Int

/-- Modelled from the spec: the external collaborators — the configured
provider name (slurm_get_auth_type / slurm_set_auth_type) and the provider
loader (plugin_context_create), which resolves a type name to a complete
capability table plus a context handle, or fails. -/
structure Env where
  conf_auth_type : CStr
  loader : CStr → Option (AuthOps × PluginContext)

/-- Provider capability invocations, recorded by the dispatch facade so that
theorems can state that a path never calls into the provider. -/
inductive PCall where
  | create
  | destroy
  | verify
  | get_uid
  | get_gid
  | get_host
  | pack
  | unpack
  | print
  | sa_errno
  | sa_errstr
deriving DecidableEq, Repr

/-- The fixed generic error table of slurm_auth_generic_errstr, in source
order. -/
def generic_table : List (Int × String) :=
  [(SLURM_SUCCESS, "no error"),
   (SLURM_ERROR, "unknown error"),
   (SLURM_AUTH_NOPLUGIN, "no authentication plugin installed"),
   (SLURM_AUTH_BADARG, "bad argument to plugin function"),
   (SLURM_AUTH_MEMORY, "memory management error"),
   (SLURM_AUTH_NOUSER, "no such user"),
   (SLURM_AUTH_INVALID, "authentication credential invalid"),
   (SLURM_AUTH_MISMATCH, "authentication type mismatch"),
   (SLURM_AUTH_VERSION, "authentication version too old")]

/-- slurm_auth_generic_errstr: first matching entry of the generic table, or
none at the table terminator. -/
def slurm_auth_generic_errstr (slurm_errno : Int) : Option String :=
  (generic_table.find? (fun p => p.1 == slurm_errno)).map Prod.snd

/-- slurm_auth_init: fast path when already initialized, then the
double-checked re-test, then configuration override, loader invocation and
state publication; loader failure leaves g_context_num at 0 so a later call
retries. -/
def slurm_auth_init (auth_type : Option CStr) (env : Env) (s : AuthState) :
    Int × Env × AuthState :=
  if s.init_run ∧ s.g_context_num > 0 then (SLURM_SUCCESS, env, s)
  else if s.g_context_num > 0 then (SLURM_SUCCESS, env, s)
  else
    let env1 :=
      match auth_type with
      | some t => { env with conf_auth_type := t }
      | none => env
    match env1.loader env1.conf_auth_type with
    | none =>
      (SLURM_ERROR, env1,
       { s with ops0 := none, g_context := some none, g_context_num := 0 })
    | some (tbl, ctx) =>
      (SLURM_SUCCESS, env1,
       { init_run := true, ops0 := some tbl,
         g_context := some (some ctx), g_context_num := 1 })

/-- slurm_auth_fini: success when g_context is NULL; otherwise clear the
init_run flag, destroy the loaded contexts (a destroy failure is recorded in
the return status but does not stop the cleanup), free both arrays and reset
g_context_num to -1. -/
def slurm_auth_fini (s : AuthState) : Int × AuthState :=
  match s.g_context with
  | none => (SLURM_SUCCESS, s)
  | some ctx0 =>
    let rc : Int :=
      if s.g_context_num ≥ 1 then
        match ctx0 with
        | some c => if c.destroy_ok then SLURM_SUCCESS else SLURM_ERROR
        | none => SLURM_SUCCESS
      else SLURM_SUCCESS
    (rc,
     { init_run := false, ops0 := none, g_context := none,
       g_context_num := -1 })

/-- g_slurm_auth_create.  In every dispatch function the `none` branch on
ops0 is unreachable from reachable states (init success establishes ops[0]);
in C it would dereference an unset table. -/
def g_slurm_auth_create (env : Env) (s : AuthState) (auth_info : Option CStr) :
    Option Cred × AuthState × List PCall :=
  match slurm_auth_init none env s with
  | (rc, _, s1) =>
    if rc < 0 then (none, s1, [])
    else
      match s1.ops0 with
      | some tbl => (tbl.create auth_info, s1, [PCall.create])
      | none => (none, s1, [])

/-- g_slurm_auth_destroy. -/
def g_slurm_auth_destroy (env : Env) (s : AuthState) (cred : Option Cred) :
    Int × AuthState × List PCall :=
  match slurm_auth_init none env s with
  | (rc, _, s1) =>
    if rc < 0 then (SLURM_ERROR, s1, [])
    else
      match s1.ops0 with
      | some tbl => (tbl.destroy cred, s1, [PCall.destroy])
      | none => (SLURM_ERROR, s1, [])

/-- g_slurm_auth_verify. -/
def g_slurm_auth_verify (env : Env) (s : AuthState) (cred : Option Cred)
    (auth_info : Option CStr) : Int × AuthState × List PCall :=
  match slurm_auth_init none env s with
  | (rc, _, s1) =>
    if rc < 0 then (SLURM_ERROR, s1, [])
    else
      match s1.ops0 with
      | some tbl => (tbl.verify cred auth_info, s1, [PCall.verify])
      | none => (SLURM_ERROR, s1, [])

/-- g_slurm_auth_get_uid. -/
def g_slurm_auth_get_uid (env : Env) (s : AuthState) (cred : Option Cred)
    (auth_info : Option CStr) : Nat × AuthState × List PCall :=
  match slurm_auth_init none env s with
  | (rc, _, s1) =>
    if rc < 0 then (SLURM_AUTH_NOBODY, s1, [])
    else
      match s1.ops0 with
      | some tbl => (tbl.get_uid cred auth_info, s1, [PCall.get_uid])
      | none => (SLURM_AUTH_NOBODY, s1, [])

/-- g_slurm_auth_get_gid. -/
def g_slurm_auth_get_gid (env : Env) (s : AuthState) (cred : Option Cred)
    (auth_info : Option CStr) : Nat × AuthState × List PCall :=
  match slurm_auth_init none env s with
  | (rc, _, s1) =>
    if rc < 0 then (SLURM_AUTH_NOBODY, s1, [])
    else
      match s1.ops0 with
      | some tbl => (tbl.get_gid cred auth_info, s1, [PCall.get_gid])
      | none => (SLURM_AUTH_NOBODY, s1, [])

/-- g_slurm_auth_get_host. -/
def g_slurm_auth_get_host (env : Env) (s : AuthState) (cred : Option Cred)
    (auth_info : Option CStr) : Option CStr × AuthState × List PCall :=
  match slurm_auth_init none env s with
  | (rc, _, s1) =>
    if rc < 0 then (none, s1, [])
    else
      match s1.ops0 with
      | some tbl => (tbl.get_host cred auth_info, s1, [PCall.get_host])
      | none => (none, s1, [])

/-- g_slurm_auth_pack: modern tier writes the 4-byte plugin id then the
provider body; legacy tier writes the length-prefixed type string, a 4-byte
zero reserved field, then the provider body; anything below the minimum
version is rejected with nothing written. -/
def g_slurm_auth_pack (env : Env) (s : AuthState) (cred : Option Cred)
    (buf : Buf) (protocol_version : Nat) :
    Int × Buf × AuthState × List PCall :=
  match slurm_auth_init none env s with
  | (rc, _, s1) =>
    if rc < 0 then (SLURM_ERROR, buf, s1, [])
    else
      match s1.ops0 with
      | none => (SLURM_ERROR, buf, s1, [])
      | some tbl =>
        if SLURM_19_05_PROTOCOL_VERSION ≤ protocol_version then
          let buf1 := pack32 tbl.plugin_id buf
          let r := tbl.pack cred protocol_version
          (r.1, { buf1 with data := buf1.data ++ r.2 }, s1, [PCall.pack])
        else if SLURM_MIN_PROTOCOL_VERSION ≤ protocol_version then
          let buf1 := pack32 0 (packstr tbl.plugin_type buf)
          let r := tbl.pack cred protocol_version
          (r.1, { buf1 with data := buf1.data ++ r.2 }, s1, [PCall.pack])
        else (SLURM_ERROR, buf, s1, [])

/-- g_slurm_auth_unpack: modern tier reads a 4-byte id and rejects a mismatch
with the loaded provider's id before delegating; legacy tier reads the
length-prefixed type string, rejects a mismatch with the provider's type
name, reads and discards the reserved field, then delegates; versions below
the minimum and any read failure yield no credential. -/
def g_slurm_auth_unpack (env : Env) (s : AuthState) (buf : Buf)
    (protocol_version : Nat) : Option Cred × Buf × AuthState × List PCall :=
  match slurm_auth_init none env s with
  | (rc, _, s1) =>
    if rc < 0 then (none, buf, s1, [])
    else
      match s1.ops0 with
      | none => (none, buf, s1, [])
      | some tbl =>
        if SLURM_19_05_PROTOCOL_VERSION ≤ protocol_version then
          match safe_unpack32 buf with
          | none => (none, buf, s1, [])
          | some (plugin_id, buf1) =>
            if plugin_id ≠ tbl.plugin_id % 2 ^ 32 then (none, buf1, s1, [])
            else
              let r := tbl.unpack buf1 protocol_version
              (r.1, r.2, s1, [PCall.unpack])
        else if SLURM_MIN_PROTOCOL_VERSION ≤ protocol_version then
          match safe_unpackmem_ptr buf with
          | (none, bufE) => (none, bufE, s1, [])
          | (some p, buf1) =>
            if xstrcmp (p.map cstr_of_region) (some tbl.plugin_type) ≠ 0 then
              (none, buf1, s1, [])
            else
              match safe_unpack32 buf1 with
              | none => (none, buf1, s1, [])
              | some (_, buf2) =>
                let r := tbl.unpack buf2 protocol_version
                (r.1, r.2, s1, [PCall.unpack])
        else (none, buf, s1, [])

/-- g_slurm_auth_print: the FILE argument is an abstract handle. -/
def g_slurm_auth_print (env : Env) (s : AuthState) (cred : Option Cred)
    (fp : Nat) : Int × AuthState × List PCall :=
  match slurm_auth_init none env s with
  | (rc, _, s1) =>
    if rc < 0 then (SLURM_ERROR, s1, [])
    else
      match s1.ops0 with
      | some tbl => (tbl.print cred fp, s1, [PCall.print])
      | none => (SLURM_ERROR, s1, [])

/-- g_slurm_auth_errno. -/
def g_slurm_auth_errno (env : Env) (s : AuthState) (cred : Option Cred) :
    Int × AuthState × List PCall :=
  match slurm_auth_init none env s with
  | (rc, _, s1) =>
    if rc < 0 then (SLURM_ERROR, s1, [])
    else
      match s1.ops0 with
      | some tbl => (tbl.sa_errno cred, s1, [PCall.sa_errno])
      | none => (SLURM_ERROR, s1, [])

/-- The fixed initialization-failure message of g_slurm_auth_errstr. -/
def auth_init_msg : String := "authentication initialization failure"

/-- g_slurm_auth_errstr: the fixed message on init failure, then the generic
table, then the provider's own error-string capability. -/
def g_slurm_auth_errstr (env : Env) (s : AuthState) (slurm_errno : Int) :
    String × AuthState × List PCall :=
  match slurm_auth_init none env s with
  | (rc, _, s1) =>
    if rc < 0 then (auth_init_msg, s1, [])
    else
      match slurm_auth_generic_errstr slurm_errno with
      | some g => (g, s1, [])
      | none =>
        match s1.ops0 with
        | some tbl => (tbl.sa_errstr slurm_errno, s1, [PCall.sa_errstr])
        | none => (auth_init_msg, s1, [])

/-- Concrete provider type name "munge" as bytes, for concrete instances. -/
def munge : CStr := [109, 117, 110, 103, 101]

/-- A concrete, fully populated capability table (plugin id 101, type name
"munge") used to instantiate theorems at concrete inputs. -/
def exOps : AuthOps where
  plugin_id := 101
  plugin_type := munge
  create := fun _ => some 42
  destroy := fun _ => SLURM_SUCCESS
  verify := fun _ _ => SLURM_SUCCESS
  get_uid := fun _ _ => 1000
  get_gid := fun _ _ => 1000
  get_host := fun _ _ => some [104]
  pack := fun _ _ => (SLURM_SUCCESS, [7, 7])
  unpack := fun b _ => (some 42, b)
  print := fun _ _ => SLURM_SUCCESS
  sa_errno := fun _ => SLURM_SUCCESS
  sa_errstr := fun _ => "provider specific message"

/-- A second concrete capability table (plugin id 202, type name "h") whose
answers differ from exOps wherever observable. -/
def exOps2 : AuthOps where
  plugin_id := 202
  plugin_type := [104]
  create := fun _ => some 7
  destroy := fun _ => SLURM_ERROR
  verify := fun _ _ => SLURM_ERROR
  get_uid := fun _ _ => 2000
  get_gid := fun _ _ => 2000
  get_host := fun _ _ => none
  pack := fun _ _ => (SLURM_SUCCESS, [9])
  unpack := fun b _ => (some 7, b)
  print := fun _ _ => SLURM_ERROR
  sa_errno := fun _ => SLURM_ERROR
  sa_errstr := fun _ => "other provider message"

/-- A concrete context handle whose destruction succeeds. -/
def exCtx : PluginContext where
  destroy_ok := true

/-- An environment whose loader always resolves to exOps. -/
def exEnv : Env where
  conf_auth_type := munge
  loader := fun _ => some (exOps, exCtx)

/-- An environment whose loader always resolves to exOps2. -/
def exEnv2 : Env where
  conf_auth_type := [104]
  loader := fun _ => some (exOps2, exCtx)

/-- An environment whose loader always fails. -/
def failEnv : Env where
  conf_auth_type := munge
  loader := fun _ => none

/-- The module state right after a successful load of exOps. -/
def sLoaded : AuthState where
  init_run := true
  ops0 := some exOps
  g_context := some (some exCtx)
  g_context_num := 1

/-- The pristine module state at process start. -/
def sInitial : AuthState where
  init_run := false
  ops0 := none
  g_context := none
  g_context_num := -1

/-- C8: in every state where a provider is already successfully loaded
(g_context_num > 0), slurm_auth_init returns success for every argument —
including an explicit provider name different from the loaded one — and
leaves the environment and the whole module state (capability table, provider
count, init flag) unchanged. -/
theorem slurm_auth_init_noop_when_loaded (a : Option CStr) (env : Env)
    (s : AuthState) (h : s.g_context_num > 0) :
    slurm_auth_init a env s = (SLURM_SUCCESS, env, s) := by
  cases hr : s.init_run <;> simp [slurm_auth_init, hr, h]

/-- Witness for C8: re-init with a different explicit provider name on a
loaded state is a no-op returning success. -/
theorem slurm_auth_init_noop_when_loaded_witness :
    sLoaded.g_context_num > 0 ∧
      slurm_auth_init (some [104]) failEnv sLoaded =
        (SLURM_SUCCESS, failEnv, sLoaded) :=
  ⟨by decide,
   slurm_auth_init_noop_when_loaded (some [104]) failEnv sLoaded (by decide)⟩

/-- C10: whenever lazy initialization fails, each dispatch operation returns
its own operation-specific sentinel without invoking any provider capability:
create and get_host return none, destroy, verify, pack, print and errno
return SLURM_ERROR, and get_uid and get_gid return SLURM_AUTH_NOBODY. -/
theorem dispatch_sentinels_on_init_failure (env : Env) (s : AuthState)
    (info : Option CStr) (cred : Option Cred) (buf : Buf) (v fp : Nat)
    (hfail : (slurm_auth_init none env s).1 < 0) :
    g_slurm_auth_create env s info =
      (none, (slurm_auth_init none env s).2.2, []) ∧
    g_slurm_auth_destroy env s cred =
      (SLURM_ERROR, (slurm_auth_init none env s).2.2, []) ∧
    g_slurm_auth_verify env s cred info =
      (SLURM_ERROR, (slurm_auth_init none env s).2.2, []) ∧
    g_slurm_auth_get_uid env s cred info =
      (SLURM_AUTH_NOBODY, (slurm_auth_init none env s).2.2, []) ∧
    g_slurm_auth_get_gid env s cred info =
      (SLURM_AUTH_NOBODY, (slurm_auth_init none env s).2.2, []) ∧
    g_slurm_auth_get_host env s cred info =
      (none, (slurm_auth_init none env s).2.2, []) ∧
    g_slurm_auth_pack env s cred buf v =
      (SLURM_ERROR, buf, (slurm_auth_init none env s).2.2, []) ∧
    g_slurm_auth_print env s cred fp =
      (SLURM_ERROR, (slurm_auth_init none env s).2.2, []) ∧
    g_slurm_auth_errno env s cred =
      (SLURM_ERROR, (slurm_auth_init none env s).2.2, []) := by
  rcases heq : slurm_auth_init none env s with ⟨rc, env2, s1⟩
  rw [heq] at hfail
  simp only at hfail
  refine ⟨?_, ?_, ?_, ?_, ?_, ?_, ?_, ?_, ?_⟩ <;>
    simp [g_slurm_auth_create, g_slurm_auth_destroy, g_slurm_auth_verify,
          g_slurm_auth_get_uid, g_slurm_auth_get_gid, g_slurm_auth_get_host,
          g_slurm_auth_pack, g_slurm_auth_print, g_slurm_auth_errno,
          heq, hfail]

/-- Witness for C10: with a failing loader and the pristine state, lazy init
fails and create returns the null sentinel with no provider call. -/
theorem dispatch_sentinels_on_init_failure_witness :
    (slurm_auth_init none failEnv sInitial).1 < 0 ∧
      g_slurm_auth_create failEnv sInitial none =
        (none, (slurm_auth_init none failEnv sInitial).2.2, []) :=
  ⟨by decide,
   (dispatch_sentinels_on_init_failure failEnv sInitial none none
      ⟨[], 0⟩ 0 0 (by decide)).1⟩

/-- C4: for every protocol version strictly below the minimum supported
threshold, g_slurm_auth_pack returns an error status with nothing appended to
the buffer and no provider call, and g_slurm_auth_unpack returns no
credential with nothing consumed from the buffer and no provider call. -/
theorem below_min_version_rejected (env : Env) (s : AuthState)
    (cred : Option Cred) (buf : Buf) (v : Nat)
    (hv : v < SLURM_MIN_PROTOCOL_VERSION) :
    (g_slurm_auth_pack env s cred buf v).1 = SLURM_ERROR ∧
    (g_slurm_auth_pack env s cred buf v).2.1 = buf ∧
    (g_slurm_auth_pack env s cred buf v).2.2.2 = [] ∧
    (g_slurm_auth_unpack env s buf v).1 = none ∧
    (g_slurm_auth_unpack env s buf v).2.1 = buf ∧
    (g_slurm_auth_unpack env s buf v).2.2.2 = [] := by
  have hv8 : v < 8192 := hv
  have h1 : ¬ SLURM_19_05_PROTOCOL_VERSION ≤ v := by
    show ¬ (8704 ≤ v); omega
  have h2 : ¬ SLURM_MIN_PROTOCOL_VERSION ≤ v := by
    show ¬ (8192 ≤ v); omega
  rcases heq : slurm_auth_init none env s with ⟨rc, env2, s1⟩
  by_cases hrc : rc < 0
  · refine ⟨?_, ?_, ?_, ?_, ?_, ?_⟩ <;>
      simp [g_slurm_auth_pack, g_slurm_auth_unpack, heq, hrc]
  · cases hops : s1.ops0 <;>
      refine ⟨?_, ?_, ?_, ?_, ?_, ?_⟩ <;>
        simp [g_slurm_auth_pack, g_slurm_auth_unpack, heq, hrc, hops, h1, h2]

/-- Witness for C4: version 0 is below the floor; pack and unpack both reject
it without touching the buffer. -/
theorem below_min_version_rejected_witness :
    (0 : Nat) < SLURM_MIN_PROTOCOL_VERSION ∧
      ((g_slurm_auth_pack exEnv sInitial none ⟨[1, 2], 0⟩ 0).1 = SLURM_ERROR ∧
       (g_slurm_auth_pack exEnv sInitial none ⟨[1, 2], 0⟩ 0).2.1 = ⟨[1, 2], 0⟩ ∧
       (g_slurm_auth_pack exEnv sInitial none ⟨[1, 2], 0⟩ 0).2.2.2 = [] ∧
       (g_slurm_auth_unpack exEnv sInitial ⟨[1, 2], 0⟩ 0).1 = none ∧
       (g_slurm_auth_unpack exEnv sInitial ⟨[1, 2], 0⟩ 0).2.1 = ⟨[1, 2], 0⟩ ∧
       (g_slurm_auth_unpack exEnv sInitial ⟨[1, 2], 0⟩ 0).2.2.2 = []) :=
  ⟨by decide,
   below_min_version_rejected exEnv sInitial none ⟨[1, 2], 0⟩ 0 (by decide)⟩

/-- C2: when lazy initialization succeeds with capability table tbl,
g_slurm_auth_unpack rejects every record whose embedded identity mismatches
the loaded provider: at the modern tier a 4-byte id different from the
provider's plugin id, at the legacy tier a length-prefixed type string that
is not byte-exactly the provider's type name; in both cases it returns no
credential and never invokes the provider's unpack routine on the body. -/
theorem unpack_rejects_identity_mismatch (env env2 : Env) (s s1 : AuthState)
    (tbl : AuthOps) (buf : Buf) (v : Nat)
    (hinit : slurm_auth_init none env s = (SLURM_SUCCESS, env2, s1))
    (hops : s1.ops0 = some tbl) :
    (SLURM_19_05_PROTOCOL_VERSION ≤ v →
      ∀ pid buf1, safe_unpack32 buf = some (pid, buf1) →
        pid ≠ tbl.plugin_id % 2 ^ 32 →
        g_slurm_auth_unpack env s buf v = (none, buf1, s1, [])) ∧
    (SLURM_MIN_PROTOCOL_VERSION ≤ v → v < SLURM_19_05_PROTOCOL_VERSION →
      ∀ p buf1, safe_unpackmem_ptr buf = (some p, buf1) →
        xstrcmp (p.map cstr_of_region) (some tbl.plugin_type) ≠ 0 →
        g_slurm_auth_unpack env s buf v = (none, buf1, s1, [])) := by
  constructor
  · intro hv pid buf1 hrd hne
    simp [g_slurm_auth_unpack, hinit, SLURM_SUCCESS, hops, hv, hrd]
    omega
  · intro hv1 hv2 p buf1 hrd hne
    have hv3 : ¬ SLURM_19_05_PROTOCOL_VERSION ≤ v := by omega
    simp [g_slurm_auth_unpack, hinit, SLURM_SUCCESS, hops, hv1, hv3, hrd, hne]

/-- Witness for C2: a modern-tier record carrying id 202 against loaded
provider id 101 is rejected with no credential and no provider call. -/
theorem unpack_rejects_identity_mismatch_witness :
    slurm_auth_init none exEnv sInitial = (SLURM_SUCCESS, exEnv, sLoaded) ∧
    sLoaded.ops0 = some exOps ∧
    g_slurm_auth_unpack exEnv sInitial ⟨[0, 0, 0, 202, 9], 0⟩ 8704 =
      (none, ⟨[0, 0, 0, 202, 9], 4⟩, sLoaded, []) := by
  refine ⟨rfl, rfl, ?_⟩
  exact (unpack_rejects_identity_mismatch exEnv exEnv sInitial sLoaded exOps
      ⟨[0, 0, 0, 202, 9], 0⟩ 8704 rfl rfl).1 (by decide) 202
      ⟨[0, 0, 0, 202, 9], 4⟩ (by decide) (by decide)

/-- C3: when lazy initialization succeeds with table tbl, pack at the modern
tier appends exactly the 4-byte plugin id followed by the provider's own pack
output, and at the legacy tier appends exactly the length-prefixed type-name
string, then a 4-byte reserved field equal to zero, then the provider's pack
output. -/
theorem pack_wire_layout (env env2 : Env) (s s1 : AuthState) (tbl : AuthOps)
    (cred : Option Cred) (buf : Buf) (v : Nat)
    (hinit : slurm_auth_init none env s = (SLURM_SUCCESS, env2, s1))
    (hops : s1.ops0 = some tbl) :
    (SLURM_19_05_PROTOCOL_VERSION ≤ v →
      g_slurm_auth_pack env s cred buf v =
        ((tbl.pack cred v).1,
         { data := buf.data ++ bytes32 tbl.plugin_id ++ (tbl.pack cred v).2,
           processed := buf.processed },
         s1, [PCall.pack])) ∧
    (SLURM_MIN_PROTOCOL_VERSION ≤ v → v < SLURM_19_05_PROTOCOL_VERSION →
      g_slurm_auth_pack env s cred buf v =
        ((tbl.pack cred v).1,
         { data := buf.data ++ bytes32 (tbl.plugin_type.length + 1) ++
             (tbl.plugin_type ++ [0]) ++ bytes32 0 ++ (tbl.pack cred v).2,
           processed := buf.processed },
         s1, [PCall.pack])) ∧
    bytes32 0 = [0, 0, 0, 0] := by
  refine ⟨?_, ?_, by decide⟩
  · intro hv
    simp [g_slurm_auth_pack, hinit, SLURM_SUCCESS, hops, hv, pack32]
  · intro hv1 hv2
    have hv3 : ¬ SLURM_19_05_PROTOCOL_VERSION ≤ v := by omega
    simp [g_slurm_auth_pack, hinit, SLURM_SUCCESS, hops, hv1, hv3,
          pack32, packstr, packmem, List.append_assoc]

/-- Witness for C3: packing with provider id 101, type "munge" and body
[7, 7] yields the exact modern wire bytes [0, 0, 0, 101, 7, 7]. -/
theorem pack_wire_layout_witness :
    slurm_auth_init none exEnv sInitial = (SLURM_SUCCESS, exEnv, sLoaded) ∧
    g_slurm_auth_pack exEnv sInitial none ⟨[], 0⟩ 8704 =
      (SLURM_SUCCESS, ⟨[0, 0, 0, 101, 7, 7], 0⟩, sLoaded, [PCall.pack]) := by
  refine ⟨rfl, ?_⟩
  have h := (pack_wire_layout exEnv exEnv sInitial sLoaded exOps none
      ⟨[], 0⟩ 8704 rfl rfl).1 (by decide)
  rw [h]
  rfl

/-- C7: when lazy initialization succeeds with table tbl, g_slurm_auth_unpack
fails cleanly on truncated or malformed input — a short read of the modern
4-byte plugin id, a failed length-prefixed type-string read, or a short read
of the legacy reserved field — returning no credential and never invoking the
provider's unpack routine. -/
theorem unpack_malformed_fails_clean (env env2 : Env) (s s1 : AuthState)
    (tbl : AuthOps) (buf : Buf) (v : Nat)
    (hinit : slurm_auth_init none env s = (SLURM_SUCCESS, env2, s1))
    (hops : s1.ops0 = some tbl) :
    (SLURM_19_05_PROTOCOL_VERSION ≤ v → remaining buf < 4 →
      g_slurm_auth_unpack env s buf v = (none, buf, s1, [])) ∧
    (SLURM_MIN_PROTOCOL_VERSION ≤ v → v < SLURM_19_05_PROTOCOL_VERSION →
      ∀ bufE, safe_unpackmem_ptr buf = (none, bufE) →
        g_slurm_auth_unpack env s buf v = (none, bufE, s1, [])) ∧
    (SLURM_MIN_PROTOCOL_VERSION ≤ v → v < SLURM_19_05_PROTOCOL_VERSION →
      ∀ p buf1, safe_unpackmem_ptr buf = (some p, buf1) →
        remaining buf1 < 4 →
        g_slurm_auth_unpack env s buf v = (none, buf1, s1, [])) := by
  refine ⟨?_, ?_, ?_⟩
  · intro hv hshort
    have hrd : safe_unpack32 buf = none := by
      simp only [safe_unpack32, ite_eq_right_iff]
      intro h4; omega
    simp [g_slurm_auth_unpack, hinit, SLURM_SUCCESS, hops, hv, hrd]
  · intro hv1 hv2 bufE hrd
    have hv3 : ¬ SLURM_19_05_PROTOCOL_VERSION ≤ v := by omega
    simp [g_slurm_auth_unpack, hinit, SLURM_SUCCESS, hops, hv1, hv3, hrd]
  · intro hv1 hv2 p buf1 hrd hshort
    have hv3 : ¬ SLURM_19_05_PROTOCOL_VERSION ≤ v := by omega
    have hrd2 : safe_unpack32 buf1 = none := by
      simp only [safe_unpack32, ite_eq_right_iff]
      intro h4; omega
    by_cases hx : xstrcmp (p.map cstr_of_region) (some tbl.plugin_type) = 0
    · simp [g_slurm_auth_unpack, hinit, SLURM_SUCCESS, hops, hv1, hv3, hrd,
            hx, hrd2]
    · simp [g_slurm_auth_unpack, hinit, SLURM_SUCCESS, hops, hv1, hv3, hrd,
            hx]

/-- Witness for C7: a modern-tier buffer holding only 3 bytes is rejected
with no credential and no provider call. -/
theorem unpack_malformed_fails_clean_witness :
    remaining ⟨[1, 2, 3], 0⟩ < 4 ∧
      g_slurm_auth_unpack exEnv sInitial ⟨[1, 2, 3], 0⟩ 8704 =
        (none, ⟨[1, 2, 3], 0⟩, sLoaded, []) :=
  ⟨by decide,
   (unpack_malformed_fails_clean exEnv exEnv sInitial sLoaded exOps
      ⟨[1, 2, 3], 0⟩ 8704 rfl rfl).1 (by decide) (by decide)⟩

/-- C5: g_slurm_auth_errstr returns the fixed initialization-failure message
when provider initialization fails; otherwise it returns the generic table's
string whenever the code is generic — the generic codes being exactly the
nine listed ones — and it invokes the provider's own error-string capability
only when the generic table has no match, so a generic code is never
described by a provider-specific string. -/
theorem errstr_lookup_order (env : Env) (s : AuthState) (e : Int) :
    ((slurm_auth_init none env s).1 < 0 →
      g_slurm_auth_errstr env s e =
        (auth_init_msg, (slurm_auth_init none env s).2.2, [])) ∧
    (¬ (slurm_auth_init none env s).1 < 0 →
      ∀ g, slurm_auth_generic_errstr e = some g →
        g_slurm_auth_errstr env s e =
          (g, (slurm_auth_init none env s).2.2, [])) ∧
    (¬ (slurm_auth_init none env s).1 < 0 →
      slurm_auth_generic_errstr e = none →
      ∀ tbl, ((slurm_auth_init none env s).2.2).ops0 = some tbl →
        g_slurm_auth_errstr env s e =
          (tbl.sa_errstr e, (slurm_auth_init none env s).2.2,
           [PCall.sa_errstr])) ∧
    (slurm_auth_generic_errstr SLURM_SUCCESS = some "no error" ∧
     slurm_auth_generic_errstr SLURM_ERROR = some "unknown error" ∧
     slurm_auth_generic_errstr SLURM_AUTH_NOPLUGIN =
       some "no authentication plugin installed" ∧
     slurm_auth_generic_errstr SLURM_AUTH_BADARG =
       some "bad argument to plugin function" ∧
     slurm_auth_generic_errstr SLURM_AUTH_MEMORY =
       some "memory management error" ∧
     slurm_auth_generic_errstr SLURM_AUTH_NOUSER = some "no such user" ∧
     slurm_auth_generic_errstr SLURM_AUTH_INVALID =
       some "authentication credential invalid" ∧
     slurm_auth_generic_errstr SLURM_AUTH_MISMATCH =
       some "authentication type mismatch" ∧
     slurm_auth_generic_errstr SLURM_AUTH_VERSION =
       some "authentication version too old") := by
  rcases heq : slurm_auth_init none env s with ⟨rc, env2, s1⟩
  refine ⟨?_, ?_, ?_, rfl, rfl, rfl, rfl, rfl, rfl, rfl, rfl, rfl⟩
  · intro hrc
    simp only at hrc
    simp [g_slurm_auth_errstr, heq, hrc]
  · intro hrc g hg
    simp only at hrc
    simp [g_slurm_auth_errstr, heq, hrc, hg]
  · intro hrc hg tbl hops
    simp only at hrc hops
    simp [g_slurm_auth_errstr, heq, hrc, hg, hops]

/-- Witness for C5: with a loaded provider, the provider-mismatch code is
described by the generic table string, not the provider's string. -/
theorem errstr_lookup_order_witness :
    ¬ (slurm_auth_init none exEnv sInitial).1 < 0 ∧
      slurm_auth_generic_errstr SLURM_AUTH_MISMATCH =
        some "authentication type mismatch" ∧
      g_slurm_auth_errstr exEnv sInitial SLURM_AUTH_MISMATCH =
        ("authentication type mismatch",
         (slurm_auth_init none exEnv sInitial).2.2, []) :=
  ⟨by decide, rfl,
   (errstr_lookup_order exEnv sInitial SLURM_AUTH_MISMATCH).2.1
     (by decide) "authentication type mismatch" rfl⟩

/-- Helper: with successful lazy initialization, a code matched by the
generic table is reported with exactly the table's string. -/
theorem errstr_generic_of_init_ok (env : Env) (s : AuthState) (e : Int)
    (g : String) (h : ¬ (slurm_auth_init none env s).1 < 0)
    (hg : slurm_auth_generic_errstr e = some g) :
    (g_slurm_auth_errstr env s e).1 = g := by
  rcases heq : slurm_auth_init none env s with ⟨rc, env2, s1⟩
  rw [heq] at h; simp only at h
  simp [g_slurm_auth_errstr, heq, h, hg]

/-- C6: the generic error-table lookup depends only on the code — for the
provider-mismatch code, and for every code present in the generic table, the
facade reports the same fixed string under any two environments and states in
which initialization succeeds, whichever provider each one loads. -/
theorem generic_errstr_fixed (env1 env2 : Env) (s1 s2 : AuthState)
    (h1 : ¬ (slurm_auth_init none env1 s1).1 < 0)
    (h2 : ¬ (slurm_auth_init none env2 s2).1 < 0) :
    slurm_auth_generic_errstr SLURM_AUTH_MISMATCH =
      some "authentication type mismatch" ∧
    (g_slurm_auth_errstr env1 s1 SLURM_AUTH_MISMATCH).1 =
      "authentication type mismatch" ∧
    (g_slurm_auth_errstr env2 s2 SLURM_AUTH_MISMATCH).1 =
      "authentication type mismatch" ∧
    (∀ e g, slurm_auth_generic_errstr e = some g →
      (g_slurm_auth_errstr env1 s1 e).1 = g ∧
      (g_slurm_auth_errstr env2 s2 e).1 = g) :=
  ⟨rfl,
   errstr_generic_of_init_ok env1 s1 SLURM_AUTH_MISMATCH
     "authentication type mismatch" h1 rfl,
   errstr_generic_of_init_ok env2 s2 SLURM_AUTH_MISMATCH
     "authentication type mismatch" h2 rfl,
   fun e g hg =>
     ⟨errstr_generic_of_init_ok env1 s1 e g h1 hg,
      errstr_generic_of_init_ok env2 s2 e g h2 hg⟩⟩

/-- Witness for C6: two different providers (ids 101 and 202) both report the
provider-mismatch code with the same fixed generic string. -/
theorem generic_errstr_fixed_witness :
    ¬ (slurm_auth_init none exEnv sInitial).1 < 0 ∧
    ¬ (slurm_auth_init none exEnv2 sInitial).1 < 0 ∧
    (g_slurm_auth_errstr exEnv sInitial SLURM_AUTH_MISMATCH).1 =
      "authentication type mismatch" ∧
    (g_slurm_auth_errstr exEnv2 sInitial SLURM_AUTH_MISMATCH).1 =
      "authentication type mismatch" :=
  ⟨by decide, by decide,
   (generic_errstr_fixed exEnv exEnv2 sInitial sInitial
      (by decide) (by decide)).2.1,
   (generic_errstr_fixed exEnv exEnv2 sInitial sInitial
      (by decide) (by decide)).2.2.1⟩

/-- C1 counterexample: slurm_auth_fini on a loaded state completes
successfully, yet a dispatch call made afterwards, before any explicit
re-init, does not return the not-initialized sentinel when the loader works:
it lazily re-initializes and invokes the provider's create capability. -/
theorem dispatch_after_fini_reloads :
    (slurm_auth_fini sLoaded).1 = SLURM_SUCCESS ∧
    (g_slurm_auth_create exEnv (slurm_auth_fini sLoaded).2 none).1 =
      some 42 ∧
    (g_slurm_auth_create exEnv (slurm_auth_fini sLoaded).2 none).2.2 =
      [PCall.create] :=
  ⟨rfl, rfl, rfl⟩

/-- C1 (amended): after slurm_auth_fini completes successfully and before any
subsequent explicit slurm_auth_init, every dispatch operation first retries
lazy initialization; whenever that retry fails, the operation returns its
not-initialized sentinel and invokes no provider capability (when the lazy
re-load succeeds, the operation instead proceeds against the freshly loaded
provider — never a stale table). -/
theorem dispatch_after_fini_sentinels_when_reload_fails (env : Env)
    (s s1 : AuthState) (rcf : Int) (info : Option CStr) (cred : Option Cred)
    (buf : Buf) (v fp : Nat) (e : Int)
    (_hfini : slurm_auth_fini s = (rcf, s1)) (_hok : rcf = SLURM_SUCCESS)
    (hfail : (slurm_auth_init none env s1).1 < 0) :
    g_slurm_auth_create env s1 info =
      (none, (slurm_auth_init none env s1).2.2, []) ∧
    g_slurm_auth_destroy env s1 cred =
      (SLURM_ERROR, (slurm_auth_init none env s1).2.2, []) ∧
    g_slurm_auth_verify env s1 cred info =
      (SLURM_ERROR, (slurm_auth_init none env s1).2.2, []) ∧
    g_slurm_auth_get_uid env s1 cred info =
      (SLURM_AUTH_NOBODY, (slurm_auth_init none env s1).2.2, []) ∧
    g_slurm_auth_get_gid env s1 cred info =
      (SLURM_AUTH_NOBODY, (slurm_auth_init none env s1).2.2, []) ∧
    g_slurm_auth_get_host env s1 cred info =
      (none, (slurm_auth_init none env s1).2.2, []) ∧
    g_slurm_auth_pack env s1 cred buf v =
      (SLURM_ERROR, buf, (slurm_auth_init none env s1).2.2, []) ∧
    g_slurm_auth_unpack env s1 buf v =
      (none, buf, (slurm_auth_init none env s1).2.2, []) ∧
    g_slurm_auth_print env s1 cred fp =
      (SLURM_ERROR, (slurm_auth_init none env s1).2.2, []) ∧
    g_slurm_auth_errno env s1 cred =
      (SLURM_ERROR, (slurm_auth_init none env s1).2.2, []) ∧
    g_slurm_auth_errstr env s1 e =
      (auth_init_msg, (slurm_auth_init none env s1).2.2, []) := by
  rcases heq : slurm_auth_init none env s1 with ⟨rc, env2, s2⟩
  rw [heq] at hfail
  simp only at hfail
  refine ⟨?_, ?_, ?_, ?_, ?_, ?_, ?_, ?_, ?_, ?_, ?_⟩ <;>
    simp [g_slurm_auth_create, g_slurm_auth_destroy, g_slurm_auth_verify,
          g_slurm_auth_get_uid, g_slurm_auth_get_gid, g_slurm_auth_get_host,
          g_slurm_auth_pack, g_slurm_auth_unpack, g_slurm_auth_print,
          g_slurm_auth_errno, g_slurm_auth_errstr, heq, hfail]

/-- Witness for the amended C1: after a successful fini, with a loader that
fails, the create dispatch returns the null sentinel with no provider call. -/
theorem dispatch_after_fini_sentinels_witness :
    (slurm_auth_fini sLoaded).1 = SLURM_SUCCESS ∧
    (slurm_auth_init none failEnv (slurm_auth_fini sLoaded).2).1 < 0 ∧
    g_slurm_auth_create failEnv (slurm_auth_fini sLoaded).2 none =
      (none,
       (slurm_auth_init none failEnv (slurm_auth_fini sLoaded).2).2.2, []) :=
  ⟨by decide, by decide,
   (dispatch_after_fini_sentinels_when_reload_fails failEnv sLoaded
      (slurm_auth_fini sLoaded).2 (slurm_auth_fini sLoaded).1 none none
      ⟨[], 0⟩ 0 0 0 rfl (by decide) (by decide)).1⟩

end SlurmAuth
